import Mathlib

/-!
# Verification of the midi20 UMP codec

A shallow embedding of the `midi20` Rust crate (Universal MIDI Packet codec).

Machine integers (`u8`, `u16`, `u32`) are modelled as `Nat` together with
explicit `% 2^w` reductions exactly where the Rust code can overflow or
truncates (`as u8`, shifts on fixed-width types).

The crate reads and writes packet words with `u32::from_ne_bytes` /
`u32::to_ne_bytes` (native endianness).  The crate's own unit tests are
gated on `cfg(target_endian = "little")`, so native endianness is modelled
here as little-endian throughout.
-/

namespace Midi20

/-! ## Packets (`src/packet.rs`)

`Packet<N>` is an array of `N` 32-bit words.  We model the four concrete
widths as structures of `Nat` words (each intended to be `< 2^32`). -/

structure Packet32 where
  w0 : Nat
  deriving DecidableEq, Repr

structure Packet64 where
  w0 : Nat
  w1 : Nat
  deriving DecidableEq, Repr

structure Packet96 where
  w0 : Nat
  w1 : Nat
  w2 : Nat
  deriving DecidableEq, Repr

structure Packet128 where
  w0 : Nat
  w1 : Nat
  w2 : Nat
  w3 : Nat
  deriving DecidableEq, Repr

/-- `Packet::message_type`: `self.0[0].to_be_bytes()[0] >> 4`, i.e. the top
nibble of word 0. -/
def messageTypeOf (w : Nat) : Nat := w >>> 28

/-- `Packet::group`: `self.0[0].to_be_bytes()[0] & 0x0f`. -/
def groupOf (w : Nat) : Nat := (w >>> 24) % 16

/-- `Packet::status`: `self.0[0].to_be_bytes()[1]` (byte 1 in big-endian
order, i.e. bits 16..23 of word 0). -/
def statusOf (w : Nat) : Nat := (w >>> 16) % 256

/-! ## The `Data` message union (`src/codec.rs` dispatch targets)

`codec::decode` wraps the packet, unchecked, in the variant selected by the
message-type nibble (each `X::from_packet_unchecked` is the identity on the
packet). -/

inductive Data where
  | Utility (p : Packet32)
  | System (p : Packet32)
  | LegacyChannelVoice (p : Packet32)
  | Reserved32 (p : Packet32)
  | Data64 (p : Packet64)
  | ChannelVoice (p : Packet64)
  | Reserved64 (p : Packet64)
  | Reserved96 (p : Packet96)
  | Data128 (p : Packet128)
  | Flex (p : Packet128)
  | UmpStream (p : Packet128)
  | Reserved128 (p : Packet128)
  deriving DecidableEq, Repr

/-- The words of the message's underlying packet, in order. -/
def Data.words : Data → List Nat
  | .Utility p | .System p | .LegacyChannelVoice p | .Reserved32 p => [p.w0]
  | .Data64 p | .ChannelVoice p | .Reserved64 p => [p.w0, p.w1]
  | .Reserved96 p => [p.w0, p.w1, p.w2]
  | .Data128 p | .Flex p | .UmpStream p | .Reserved128 p => [p.w0, p.w1, p.w2, p.w3]

/-- Packet width in words for each variant. -/
def Data.widthWords : Data → Nat
  | .Utility _ | .System _ | .LegacyChannelVoice _ | .Reserved32 _ => 1
  | .Data64 _ | .ChannelVoice _ | .Reserved64 _ => 2
  | .Reserved96 _ => 3
  | .Data128 _ | .Flex _ | .UmpStream _ | .Reserved128 _ => 4

/-- The variant is one of the `Reserved32/64/96/128` opaque variants. -/
def Data.isReserved : Data → Prop
  | .Reserved32 _ | .Reserved64 _ | .Reserved96 _ | .Reserved128 _ => True
  | _ => False

instance : DecidablePred Data.isReserved := by
  intro d
  cases d <;> simp only [Data.isReserved] <;> infer_instance

/-- Well-formedness: the variant matches the message-type nibble of word 0,
exactly as `codec::decode` dispatches (`Data::Utility` holds a type-0 packet,
…, `Data::Reserved96` a type-0xB or 0xC packet, and so on). -/
def Data.wf : Data → Prop
  | .Utility p => messageTypeOf p.w0 = 0
  | .System p => messageTypeOf p.w0 = 1
  | .LegacyChannelVoice p => messageTypeOf p.w0 = 2
  | .Reserved32 p => messageTypeOf p.w0 = 6 ∨ messageTypeOf p.w0 = 7
  | .Data64 p => messageTypeOf p.w0 = 3
  | .ChannelVoice p => messageTypeOf p.w0 = 4
  | .Reserved64 p => messageTypeOf p.w0 = 8 ∨ messageTypeOf p.w0 = 9 ∨ messageTypeOf p.w0 = 0xa
  | .Reserved96 p => messageTypeOf p.w0 = 0xb ∨ messageTypeOf p.w0 = 0xc
  | .Data128 p => messageTypeOf p.w0 = 5
  | .Flex p => messageTypeOf p.w0 = 0xd
  | .UmpStream p => messageTypeOf p.w0 = 0xf
  | .Reserved128 p => messageTypeOf p.w0 = 0xe

instance : DecidablePred Data.wf := by
  intro d
  cases d <;> simp only [Data.wf] <;> infer_instance

/-- Every word of the message is a valid `u32` value. -/
def Data.wordsLt (d : Data) : Prop := ∀ w ∈ d.words, w < 2 ^ 32

instance : DecidablePred Data.wordsLt := by
  intro d
  unfold Data.wordsLt
  infer_instance

/-! ## Byte-level codec (`src/codec.rs`) -/

/-- `u32::to_ne_bytes` on a little-endian host: least significant byte
first. -/
def toLEBytes (w : Nat) : List Nat :=
  [w % 256, w / 256 % 256, w / 65536 % 256, w / 16777216 % 256]

/-- `u32::from_ne_bytes` of a 4-byte chunk on a little-endian host.  Returns
`none` when fewer than 4 bytes are available, like `ChunksExact::next`. -/
def fromLE4 : List Nat → Option Nat
  | [b0, b1, b2, b3] => some (b0 + 256 * b1 + 65536 * b2 + 16777216 * b3)
  | _ => none

/-- The `k`-th 4-byte chunk of the buffer as a word
(`buf.chunks_exact(4)` advanced `k` times, then `from_ne_bytes`). -/
def chunkAt (buf : List Nat) (k : Nat) : Option Nat :=
  fromLE4 ((buf.drop (4 * k)).take 4)

/-- `codec::encode`: writes each word of the message's packet into the
buffer in word order via `to_ne_bytes`.  This is the byte image the encoder
leaves at the start of a sufficiently large buffer. -/
def encodeBytes (d : Data) : List Nat := d.words.flatMap toLEBytes

/-- `codec::decode`: reads the first word, dispatches on the message-type
nibble, reads the remaining words of the mandated width, and wraps the
packet in the matching variant.  `none` models both a failed chunk read
(`?` on `chunks.next()`) and the (unreachable for `u32` input) trailing
`unreachable!` arm. -/
def decode (buf : List Nat) : Option (Nat × Data) :=
  match chunkAt buf 0 with
  | none => none
  | some w0 =>
    let t := messageTypeOf w0
    if t = 0 ∨ t = 1 ∨ t = 2 ∨ t = 6 ∨ t = 7 then
      let d : Data :=
        if t = 0 then .Utility ⟨w0⟩
        else if t = 1 then .System ⟨w0⟩
        else if t = 2 then .LegacyChannelVoice ⟨w0⟩
        else .Reserved32 ⟨w0⟩
      some (4, d)
    else if t = 3 ∨ t = 4 ∨ t = 8 ∨ t = 9 ∨ t = 0xa then
      match chunkAt buf 1 with
      | none => none
      | some w1 =>
        let d : Data :=
          if t = 3 then .Data64 ⟨w0, w1⟩
          else if t = 4 then .ChannelVoice ⟨w0, w1⟩
          else .Reserved64 ⟨w0, w1⟩
        some (8, d)
    else if t = 0xb ∨ t = 0xc then
      match chunkAt buf 1, chunkAt buf 2 with
      | some w1, some w2 => some (12, .Reserved96 ⟨w0, w1, w2⟩)
      | _, _ => none
    else if t = 5 ∨ t = 0xd ∨ t = 0xe ∨ t = 0xf then
      match chunkAt buf 1, chunkAt buf 2, chunkAt buf 3 with
      | some w1, some w2, some w3 =>
        let d : Data :=
          if t = 5 then .Data128 ⟨w0, w1, w2, w3⟩
          else if t = 0xd then .Flex ⟨w0, w1, w2, w3⟩
          else if t = 0xf then .UmpStream ⟨w0, w1, w2, w3⟩
          else .Reserved128 ⟨w0, w1, w2, w3⟩
        some (16, d)
      | _, _, _ => none
    else
      none

/-- The packet-width table of spec §3, in words, keyed by the message-type
nibble. -/
def tableWidth (t : Nat) : Nat :=
  if t = 0 ∨ t = 1 ∨ t = 2 ∨ t = 6 ∨ t = 7 then 1
  else if t = 3 ∨ t = 4 ∨ t = 8 ∨ t = 9 ∨ t = 0xa then 2
  else if t = 0xb ∨ t = 0xc then 3
  else 4

/-- The wire type nibble as seen by `decode` on a little-endian host: the
high nibble of byte 3 of the buffer (byte 3 is the most significant byte of
the first word). -/
def nibbleOf (buf : List Nat) : Nat := (buf.getD 3 0) >>> 4

/-! ## Utility messages (`src/message/utility.rs`) -/

namespace utility

inductive UtilityStatus where
  | NoOp
  | JrTimestamp
  | JrClock
  | DataClockstampTicksPerQuarternote
  | DeltaClockstamp
  deriving DecidableEq, Repr

/-- `Utility::status`: matches on the status byte; the `unreachable!` arm
for unrecognized bytes is modelled as `none` (a panic). -/
def statusResult (w : Nat) : Option UtilityStatus :=
  match statusOf w with
  | 0 => some .NoOp
  | 1 => some .JrTimestamp
  | 2 => some .JrClock
  | 3 => some .DataClockstampTicksPerQuarternote
  | 4 => some .DeltaClockstamp
  | _ => none

/-- `Utility::data`: `(self.0[0] & 0x0000_ffff) as u16`. -/
def data (w : Nat) : Nat := w % 65536

/-- `Utility::jr_timestamp`. -/
def jr_timestamp (timestamp : Nat) : Nat := 0x00200000 ||| timestamp

end utility

/-! ## System common/realtime messages (`src/message/system.rs`) -/

namespace system

inductive SystemStatus where
  | TimeCode
  | SongPositionPointer
  | SongSelect
  | TuneRequest
  | TimingClock
  | Start
  | Continue
  | Stop
  | ActiveSensing
  | Reset
  deriving DecidableEq, Repr

/-- `System::status`: matches on the status byte; the `unreachable!` arm is
modelled as `none` (a panic). -/
def statusResult (w : Nat) : Option SystemStatus :=
  match statusOf w with
  | 0xf1 => some .TimeCode
  | 0xf2 => some .SongPositionPointer
  | 0xf3 => some .SongSelect
  | 0xf6 => some .TuneRequest
  | 0xf8 => some .TimingClock
  | 0xfa => some .Start
  | 0xfb => some .Continue
  | 0xfc => some .Stop
  | 0xfe => some .ActiveSensing
  | 0xff => some .Reset
  | _ => none

end system

/-! ## Legacy (MIDI 1.x) channel voice messages (`src/message/channel1.rs`)

Functions are over the single packet word.  `data()` is bytes 1..3 of the
word in big-endian order. -/

namespace channel1

inductive LegacyChannelVoiceStatus where
  | NoteOn
  | NoteOff
  | PolyPressure
  | ControlChange
  | ProgramChange
  | ChannelPressure
  | PitchBend
  deriving DecidableEq, Repr

/-- `LegacyChannelVoice::channel`: `self.data()[0] & 0x0f`. -/
def channel (w : Nat) : Nat := ((w >>> 16) % 256) % 16

/-- `LegacyChannelVoice::note_number`: `self.data()[1]`. -/
def note_number (w : Nat) : Nat := (w >>> 8) % 256

/-- `LegacyChannelVoice::velocity`: `self.data()[2]`. -/
def velocity (w : Nat) : Nat := w % 256

/-- `LegacyChannelVoice::cc_index`: `self.data()[1]`. -/
def cc_index (w : Nat) : Nat := (w >>> 8) % 256

/-- `LegacyChannelVoice::cc_value`: `self.data()[2]`. -/
def cc_value (w : Nat) : Nat := w % 256

/-- `LegacyChannelVoice::program_change_value`: `self.data()[1]`. -/
def program_change_value (w : Nat) : Nat := (w >>> 8) % 256

/-- `LegacyChannelVoice::pitch_bend_value`:
`((data[1] as u16) << 7) | (data[2] as u16)`. -/
def pitch_bend_value (w : Nat) : Nat :=
  (((w >>> 8) % 256) <<< 7) ||| (w % 256)

/-- `LegacyChannelVoice::poly_pressure_note`: `self.data()[1]`. -/
def poly_pressure_note (w : Nat) : Nat := (w >>> 8) % 256

/-- `LegacyChannelVoice::poly_pressure_value`: `self.data()[2]`. -/
def poly_pressure_value (w : Nat) : Nat := w % 256

/-- `LegacyChannelVoice::channel_pressure_value`: `self.data()[1]`. -/
def channel_pressure_value (w : Nat) : Nat := (w >>> 8) % 256

/-- `LegacyChannelVoice::with_channel`:
`self.0[0] = (self.0[0] & 0xfff0_0000) | ((channel as u32) << 24)`. -/
def with_channel (w c : Nat) : Nat := (w &&& 0xfff00000) ||| (c <<< 24)

/-- `LegacyChannelVoice::note_off`: `0x2080_0000 | note << 8 | velocity`. -/
def note_off (note vel : Nat) : Nat := 0x20800000 ||| (note <<< 8) ||| vel

/-- `LegacyChannelVoice::note_on`: `0x2090_0000 | note << 8 | velocity`. -/
def note_on (note vel : Nat) : Nat := 0x20900000 ||| (note <<< 8) ||| vel

/-- `LegacyChannelVoice::poly_pressure`: `0x20a0_0000 | note << 8 | pressure`. -/
def poly_pressure (note pressure : Nat) : Nat := 0x20a00000 ||| (note <<< 8) ||| pressure

/-- `LegacyChannelVoice::control_change`: `0x20b0_0000 | index << 8 | value`. -/
def control_change (index value : Nat) : Nat := 0x20b00000 ||| (index <<< 8) ||| value

/-- `LegacyChannelVoice::program_change`: `0x20c0_0000 | note << 8 | velocity`. -/
def program_change (note vel : Nat) : Nat := 0x20c00000 ||| (note <<< 8) ||| vel

/-- `LegacyChannelVoice::channel_pressure`: `0x20d0_0000 | value << 8`. -/
def channel_pressure (value : Nat) : Nat := 0x20d00000 ||| (value <<< 8)

/-- `LegacyChannelVoice::pitch_bend`: the `u16` value is split as
`u32::from_be_bytes([0, 0, (value >> 7) as u8, ((value << 7) >> 7) as u8])`
(the `<<`/`>>` happen at `u16` width). -/
def pitch_bend (value : Nat) : Nat :=
  0x20e00000 ||| ((((value >>> 7) % 256) <<< 8) ||| ((((value <<< 7) % 65536) >>> 7) % 256))

/-- `LegacyChannelVoice::status`: dispatch on the high nibble of the status
byte.  Wire nibble `0x8` is mapped to the `NoteOn` enum value and `0x9` to
`NoteOff` (the enum as written in the source).  The `unreachable!` arm for
nibbles below `0x8` and `0xf` is modelled as `none` (a panic). -/
def statusResult (w : Nat) : Option LegacyChannelVoiceStatus :=
  match statusOf w >>> 4 with
  | 0x8 => some .NoteOn
  | 0x9 => some .NoteOff
  | 0xa => some .PolyPressure
  | 0xb => some .ControlChange
  | 0xc => some .ProgramChange
  | 0xd => some .ChannelPressure
  | 0xe => some .PitchBend
  | _ => none

end channel1

/-! ## MIDI 2.0 channel voice messages (`src/message/channel2.rs`)

`data()` here uses `to_ne_bytes` (little-endian): `data().0` is byte 2 of
word 0 (bits 16..23) and `data().1` is byte 3 (bits 24..31). -/

namespace channel2

inductive ChannelVoiceStatus where
  | NoteOff
  | NoteOn
  | PolyPressure
  | RpnMgmt
  | ArpnMgmt
  | PerNoteMgmt
  | ControlChange
  | RpnControlChange
  | ArpnControlChange
  | RpnRelativeControlChange
  | ArpnRelativeControlChange
  | ProgramChange
  | ChannelPressure
  | PitchBend
  | PerNotePitchBend
  deriving DecidableEq, Repr

inductive Attr where
  | Manufacturer (d : Nat)
  | Profile (d : Nat)
  | Pitch79 (d : Nat)
  deriving DecidableEq, Repr

/-- The `(attr_type, attr_data)` pair computed by `note_on`/`note_off`. -/
def attrPair : Option Attr → Nat × Nat
  | none => (0, 0)
  | some (.Manufacturer d) => (1, d)
  | some (.Profile d) => (2, d)
  | some (.Pitch79 d) => (3, d)

/-- `ChannelVoice::channel`: `((self.0[0] >> 16) & 0xf) as u8`. -/
def channel (p : Packet64) : Nat := (p.w0 >>> 16) % 16

/-- `ChannelVoice::note_number`: `self.data().0` = byte 2 (little-endian) of
word 0. -/
def note_number (p : Packet64) : Nat := (p.w0 >>> 16) % 256

/-- `ChannelVoice::velocity`: `(self.data().2 >> 16) as u16`. -/
def velocity (p : Packet64) : Nat := (p.w1 >>> 16) % 65536

/-- `ChannelVoice::attribute_data`: `(self.data().2 & 0x0000_ffff) as u16`. -/
def attribute_data (p : Packet64) : Nat := p.w1 % 65536

/-- `ChannelVoice::poly_pressure_value`: `self.data().2`. -/
def poly_pressure_value (p : Packet64) : Nat := p.w1

/-- `ChannelVoice::cc_index`: `self.data().0`. -/
def cc_index (p : Packet64) : Nat := (p.w0 >>> 16) % 256

/-- `ChannelVoice::cc_value`: `self.data().2`. -/
def cc_value (p : Packet64) : Nat := p.w1

/-- `ChannelVoice::pitch_bend_value`: `self.data().2`. -/
def pitch_bend_value (p : Packet64) : Nat := p.w1

/-- `ChannelVoice::with_channel`:
`self.0[0] = (self.0[0] & 0xfff0_0000) | ((channel as u32) << 24)`. -/
def with_channel (p : Packet64) (c : Nat) : Packet64 :=
  ⟨(p.w0 &&& 0xfff00000) ||| (c <<< 24), p.w1⟩

/-- `ChannelVoice::note_off`:
`[0x4090_0000 | note << 8 | attr_type, velocity << 16 | attr_data]`. -/
def note_off (note vel : Nat) (attr : Option Attr) : Packet64 :=
  ⟨0x40900000 ||| (note <<< 8) ||| (attrPair attr).1, (vel <<< 16) ||| (attrPair attr).2⟩

/-- `ChannelVoice::note_on`:
`[0x40a0_0000 | note << 8 | attr_type, velocity << 16 | attr_data]`. -/
def note_on (note vel : Nat) (attr : Option Attr) : Packet64 :=
  ⟨0x40a00000 ||| (note <<< 8) ||| (attrPair attr).1, (vel <<< 16) ||| (attrPair attr).2⟩

/-- `ChannelVoice::poly_pressure`: `[0x40b0_0000 | note << 8, pressure]`. -/
def poly_pressure (note pressure : Nat) : Packet64 :=
  ⟨0x40b00000 ||| (note <<< 8), pressure⟩

/-- `ChannelVoice::control_change`: `[0x20b0_0000 | index << 8, value]`. -/
def control_change (index value : Nat) : Packet64 :=
  ⟨0x20b00000 ||| (index <<< 8), value⟩

/-- `ChannelVoice::program_change`:
`[0x20c0_0000 | options, program << 24 | bank_msb << 8 | bank_lsb]`. -/
def program_change (options program bank : Nat) : Packet64 :=
  ⟨0x20c00000 ||| options, (program <<< 24) ||| (((bank >>> 8) % 256) <<< 8) ||| (bank % 256)⟩

/-- `ChannelVoice::channel_pressure`: `[0x20d0_0000, value]`. -/
def channel_pressure (value : Nat) : Packet64 :=
  ⟨0x20d00000, value⟩

/-- The second word of `ChannelVoice::pitch_bend`:
`u32::from_be_bytes([0, 0, (value >> 7) as u8, ((value << 7) >> 7) as u8])`
with all shifts at `u32` width. -/
def pitch_bend_word (value : Nat) : Nat :=
  (((value >>> 7) % 256) <<< 8) ||| ((((value <<< 7) % 4294967296) >>> 7) % 256)

/-- `ChannelVoice::pitch_bend`: `[0x20e0_0000, packed value]`. -/
def pitch_bend (value : Nat) : Packet64 :=
  ⟨0x20e00000, pitch_bend_word value⟩

/-- `ChannelVoice::status`: dispatch on bits 20..23 of word 0; the
`unreachable!` arm (nibble 7) is modelled as `none` (a panic). -/
def statusResult (p : Packet64) : Option ChannelVoiceStatus :=
  match (p.w0 >>> 20) % 16 with
  | 0x8 => some .NoteOff
  | 0x9 => some .NoteOn
  | 0xa => some .PolyPressure
  | 0x0 => some .RpnMgmt
  | 0x1 => some .ArpnMgmt
  | 0xf => some .PerNoteMgmt
  | 0xb => some .ControlChange
  | 0x2 => some .RpnControlChange
  | 0x3 => some .ArpnControlChange
  | 0x4 => some .RpnRelativeControlChange
  | 0x5 => some .ArpnRelativeControlChange
  | 0xc => some .ProgramChange
  | 0xd => some .ChannelPressure
  | 0xe => some .PitchBend
  | 0x6 => some .PerNotePitchBend
  | _ => none

end channel2

/-! ## MIDI-1 → MIDI-2 conversion
(`impl From<LegacyChannelVoice> for ChannelVoice`, `src/message/channel1.rs`) -/

/-- `convert_velocity`: `(v as u16) << 8`. -/
def convert_velocity (v : Nat) : Nat := v <<< 8

/-- `convert_pressure`: `(v as u32) << 24`. -/
def convert_pressure (v : Nat) : Nat := v <<< 24

/-- `convert_pitch_bend`: `(v as u32) << 14`. -/
def convert_pitch_bend (v : Nat) : Nat := v <<< 14

/-- `From<LegacyChannelVoice> for ChannelVoice`: dispatch on the legacy
status, build the MIDI-2 message, then `with_channel(value.channel())`.
`none` models the panic inside `LegacyChannelVoice::status` for
unrecognized status nibbles. -/
def legacyToChannelVoice (w : Nat) : Option Packet64 :=
  match channel1.statusResult w with
  | none => none
  | some s =>
    let message : Packet64 :=
      match s with
      | .NoteOff =>
        channel2.note_off (channel1.note_number w)
          (convert_velocity (channel1.velocity w)) none
      | .NoteOn =>
        channel2.note_on (channel1.note_number w)
          (convert_velocity (channel1.velocity w)) none
      | .PolyPressure =>
        channel2.poly_pressure (channel1.poly_pressure_note w)
          (convert_pressure (channel1.poly_pressure_value w))
      | .ControlChange =>
        channel2.control_change (channel1.cc_index w)
          (convert_pressure (channel1.cc_value w))
      | .ChannelPressure =>
        channel2.channel_pressure (convert_pressure (channel1.channel_pressure_value w))
      | .PitchBend =>
        channel2.pitch_bend (convert_pitch_bend (channel1.pitch_bend_value w))
      | .ProgramChange =>
        channel2.program_change 0 (channel1.program_change_value w) 0
    some (channel2.with_channel message (channel1.channel w))

/-! ## Flex data status codes (`src/message/flex.rs`) -/

namespace flex

inductive FlexSetupAndPerformance where
  | SetTempo
  | SetTimeSignature
  | SetMetronome
  | SetKeySignature
  | SetChordName
  | TextMessageCommonFormat (val : Nat)
  | Undefined (val : Nat)
  deriving DecidableEq, Repr

/-- `From<u8> for FlexSetupAndPerformance`; the `unreachable!` arm for
values `≥ 0x10` is modelled as `none` (a panic). -/
def setupFromU8 (v : Nat) : Option FlexSetupAndPerformance :=
  if v = 0x00 then some .SetTempo
  else if v = 0x01 then some .SetTimeSignature
  else if v = 0x02 then some .SetMetronome
  else if v = 0x05 then some .SetKeySignature
  else if v = 0x06 then some .SetChordName
  else if 0x07 ≤ v ∧ v ≤ 0x0F then some (.TextMessageCommonFormat v)
  else if v = 0x03 ∨ v = 0x04 then some (.Undefined v)
  else none

/-- `From<FlexSetupAndPerformance> for u8`. -/
def setupToU8 : FlexSetupAndPerformance → Nat
  | .SetTempo => 0x00
  | .SetTimeSignature => 0x01
  | .SetMetronome => 0x02
  | .SetKeySignature => 0x05
  | .SetChordName => 0x06
  | .TextMessageCommonFormat val => val
  | .Undefined val => val

inductive FlexMetadataText where
  | Unknown
  | ProjectName
  | CompositionName
  | MidiClipName
  | CopyrightNotice
  | ComposerName
  | LyricistName
  | ArrangerName
  | PublisherName
  | PrimaryPerformerName
  | AccompanyingPerformerName
  | RecordingDate
  | RecordingLocation
  deriving DecidableEq, Repr

/-- `From<u8> for FlexMetadataText`; `unreachable!` for values `≥ 0xD`. -/
def metadataFromU8 (v : Nat) : Option FlexMetadataText :=
  match v with
  | 0x0 => some .Unknown
  | 0x1 => some .ProjectName
  | 0x2 => some .CompositionName
  | 0x3 => some .MidiClipName
  | 0x4 => some .CopyrightNotice
  | 0x5 => some .ComposerName
  | 0x6 => some .LyricistName
  | 0x7 => some .ArrangerName
  | 0x8 => some .PublisherName
  | 0x9 => some .PrimaryPerformerName
  | 0xA => some .AccompanyingPerformerName
  | 0xB => some .RecordingDate
  | 0xC => some .RecordingLocation
  | _ => none

/-- `From<FlexMetadataText> for u8`. -/
def metadataToU8 : FlexMetadataText → Nat
  | .Unknown => 0
  | .ProjectName => 1
  | .CompositionName => 2
  | .MidiClipName => 3
  | .CopyrightNotice => 4
  | .ComposerName => 5
  | .LyricistName => 6
  | .ArrangerName => 7
  | .PublisherName => 8
  | .PrimaryPerformerName => 9
  | .AccompanyingPerformerName => 0xA
  | .RecordingDate => 0xB
  | .RecordingLocation => 0xC

inductive FlexPerformanceTextEvent where
  | Unknown
  | Lyrics
  | LyricsLanguage
  | RubyLyrics
  | RubyLyricsLanguage
  deriving DecidableEq, Repr

/-- `From<u8> for FlexPerformanceTextEvent`; `unreachable!` for `≥ 5`. -/
def perfTextFromU8 (v : Nat) : Option FlexPerformanceTextEvent :=
  match v with
  | 0 => some .Unknown
  | 1 => some .Lyrics
  | 2 => some .LyricsLanguage
  | 3 => some .RubyLyrics
  | 4 => some .RubyLyricsLanguage
  | _ => none

/-- `From<FlexPerformanceTextEvent> for u8`. -/
def perfTextToU8 : FlexPerformanceTextEvent → Nat
  | .Unknown => 0
  | .Lyrics => 1
  | .LyricsLanguage => 2
  | .RubyLyrics => 3
  | .RubyLyricsLanguage => 4

inductive FlexStatus where
  | SetupAndPerformance (s : FlexSetupAndPerformance)
  | MetadataText (s : FlexMetadataText)
  | PerformanceTextEvent (s : FlexPerformanceTextEvent)
  | Reserved (bankAndStatus : Nat)
  deriving DecidableEq, Repr

/-- `From<u16> for FlexStatus`: `status[0]` (the bank byte, `v >> 8` of a
`u16`) selects the sub-taxonomy; unrecognized banks yield
`Reserved(value)`.  The panics of the sub-conversions are `none`. -/
def statusFromU16 (v : Nat) : Option FlexStatus :=
  if v >>> 8 = 0x00 then (setupFromU8 (v % 256)).map .SetupAndPerformance
  else if v >>> 8 = 0x01 then (metadataFromU8 (v % 256)).map .MetadataText
  else if v >>> 8 = 0x02 then (perfTextFromU8 (v % 256)).map .PerformanceTextEvent
  else some (.Reserved v)

/-- `From<FlexStatus> for u16`. -/
def statusToU16 : FlexStatus → Nat
  | .SetupAndPerformance s => setupToU8 s
  | .MetadataText s => 0x0100 ||| metadataToU8 s
  | .PerformanceTextEvent s => 0x0200 ||| perfTextToU8 s
  | .Reserved bankAndStatus => bankAndStatus

end flex


/-! ## The enum-based message layer (`src/message.rs`) and UMP stream reader
(`src/ump.rs`)

This is the other generation of the crate: `MidiMessage` is a tagged union
over plain-field enums, `UMP` is a byte-array packet, and
`UMP::stream_from_bytes` is the buffer iterator. -/

namespace ump

/-- `UMP`: a 32/64/96/128-bit packet as raw wire bytes (byte 0 holds the
type and group nibbles). -/
inductive UMP where
  | U32 (b : List Nat)
  | U64 (b : List Nat)
  | U96 (b : List Nat)
  | U128 (b : List Nat)
  deriving DecidableEq, Repr

inductive Utility where
  | NoOp
  | JrClock (clock : Nat)
  | JrTimestamp (stamp : Nat)
  deriving DecidableEq, Repr

inductive SystemCommon where
  | TimeCode (tc : Nat)
  | SongPositionPointer (spp : Nat)
  | SongSelect (ss : Nat)
  | TuneRequest
  deriving DecidableEq, Repr

inductive SystemRealtime where
  | TimingClock
  | Start
  | Continue
  | Stop
  | ActiveSensing
  | Reset
  deriving DecidableEq, Repr

inductive LegacyChannelVoice where
  | NoteOn (channel note vel : Nat)
  | NoteOff (channel note vel : Nat)
  | PolyPressure (channel note pressure : Nat)
  | ControlChange (channel control value : Nat)
  | ProgramChange (channel program reserved : Nat)
  | ChannelPressure (channel pressure reserved : Nat)
  | PitchBend (channel data : Nat)
  deriving DecidableEq, Repr

inductive ChannelVoice where
  | RegPerNoteCtrl (channel note control data : Nat)
  | AsgnPerNoteCtrl (channel note control data : Nat)
  | RegsteredCtrl (channel bank index data : Nat)
  | AssignableCtrl (channel bank index data : Nat)
  | RelRegCtrl (channel bank index data : Nat)
  | RelAssnCtrl (channel bank index data : Nat)
  | PerNotePitchBnd (channel note data : Nat)
  | NoteOff (channel note attr vel attrVal : Nat)
  | NoteOn (channel note attr vel attrVal : Nat)
  | PolyPressure (channel note data : Nat)
  | ControlChange (channel control data : Nat)
  | ProgramChange (channel options program bank : Nat)
  | ChannelPressure (channel data : Nat)
  | PitchBend (channel data : Nat)
  | PerNoteMngmt (channel note flags : Nat)
  deriving DecidableEq, Repr

inductive FlexAddress where
  | Channel (c : Nat)
  | Group (g : Nat)
  | Reserved1 (c : Nat)
  | Reserved2 (c : Nat)
  deriving DecidableEq, Repr

inductive FlexFormat where
  | SinglePacket
  | Start
  | Continue
  | End
  deriving DecidableEq, Repr

inductive FlexMetadataText where
  | Unknown
  | ProjectName
  | CompositionName
  | MidiClipName
  | CopyrightNotice
  | ComposerName
  | LyricistName
  | ArrangerName
  | PublisherName
  | PrimaryPerformerName
  | AccompanyingPerformerName
  | RecordingDate
  | RecordingLocation
  deriving DecidableEq, Repr

inductive FlexPerformanceTextEvent where
  | Unknown
  | Lyrics
  | LyricsLanguage
  | Ruby
  | RubyLanguage
  deriving DecidableEq, Repr

inductive FlexStatus where
  | SetupAndPerformance
  | MetadataText (s : FlexMetadataText)
  | PerformanceTextEvent (s : FlexPerformanceTextEvent)
  | Reserved (statusBank status : Nat)
  deriving DecidableEq, Repr

inductive Flex where
  | SetTempo (tempo : Nat)
  | SetTimeSignature (numerator denominator numberOf32n : Nat)
  | SetMetronome (clocksPerClick : Nat) (barAccents : List Nat) (subdivisionClicks : List Nat)
  | SetKeySignature (address : FlexAddress) (sharpsOrFlats : Int) (tonicNote : Nat)
  | SetChordName (address : FlexAddress) (data : List Nat)
  | TextMessageCommonFormat (address : FlexAddress) (format : FlexFormat)
      (status : FlexStatus) (data : List Nat)
  deriving DecidableEq, Repr

inductive Data64 where
  | SinglePacket (b : List Nat)
  | Start (b : List Nat)
  | Continue (b : List Nat)
  | End (b : List Nat)
  deriving DecidableEq, Repr

inductive Data128 where
  | SinglePacket (b : List Nat)
  | Start (b : List Nat)
  | Continue (b : List Nat)
  | End (b : List Nat)
  | MixedDataSetHeader (b : List Nat)
  | MixedDataSetPayload (b : List Nat)
  deriving DecidableEq, Repr

inductive MidiMessageData where
  | Utility (u : Utility)
  | SystemCommon (s : SystemCommon)
  | SystemRealtime (s : SystemRealtime)
  | LegacyChannelVoice (cv : LegacyChannelVoice)
  | ChannelVoice (cv : ChannelVoice)
  | Flex (f : Flex)
  | Data64 (d : Data64)
  | Data128 (d : Data128)
  | Undefined (u : UMP)
  deriving DecidableEq, Repr

structure MidiMessage where
  group : Nat
  data : MidiMessageData
  deriving DecidableEq, Repr

/-- The message category of a `MidiMessageData` value (its source packet's
category; `SystemCommon` and `SystemRealtime` are both System packets). -/
inductive Category where
  | utility
  | system
  | legacyChannelVoice
  | channelVoice
  | flex
  | data64
  | data128
  | undefined
  deriving DecidableEq, Repr

def MidiMessageData.category : MidiMessageData → Category
  | .Utility _ => .utility
  | .SystemCommon _ => .system
  | .SystemRealtime _ => .system
  | .LegacyChannelVoice _ => .legacyChannelVoice
  | .ChannelVoice _ => .channelVoice
  | .Flex _ => .flex
  | .Data64 _ => .data64
  | .Data128 _ => .data128
  | .Undefined _ => .undefined

/-- `UMP::stream_from_bytes`: read the leading byte, pick the packet width
from its high nibble, read the remaining bytes; the stream ends when the
byte source runs dry mid-packet. -/
def streamFromBytes : List Nat → List UMP
  | [] => []
  | b :: rest =>
    let t := b >>> 4
    if t = 0 ∨ t = 1 ∨ t = 2 ∨ t = 6 ∨ t = 7 then
      if 3 ≤ rest.length then UMP.U32 (b :: rest.take 3) :: streamFromBytes (rest.drop 3)
      else []
    else if t = 3 ∨ t = 4 ∨ t = 8 ∨ t = 9 ∨ t = 0xa then
      if 7 ≤ rest.length then UMP.U64 (b :: rest.take 7) :: streamFromBytes (rest.drop 7)
      else []
    else if t = 0xb ∨ t = 0xc then
      if 11 ≤ rest.length then UMP.U96 (b :: rest.take 11) :: streamFromBytes (rest.drop 11)
      else []
    else if t = 5 ∨ t = 0xd ∨ t = 0xe ∨ t = 0xf then
      if 15 ≤ rest.length then UMP.U128 (b :: rest.take 15) :: streamFromBytes (rest.drop 15)
      else []
    else []
  termination_by l => l.length
  decreasing_by
    all_goals simp only [List.length_cons, List.length_drop]
    all_goals omega

/-- `ump::channel_voice1`: decode a 32-bit MIDI-1 channel-voice packet.
Wire nibble `0x8` is Note OFF and `0x9` is Note ON here.  `unreachable!`
(nibbles below 8, and 0xF) is modelled as `none` (a panic). -/
def channel_voice1 (b : List Nat) : Option MidiMessage :=
  let group := b.getD 0 0 % 16
  let channel := b.getD 1 0 % 16
  match b.getD 1 0 >>> 4 with
  | 0x8 => some ⟨group, .LegacyChannelVoice (.NoteOff channel (b.getD 2 0) (b.getD 3 0))⟩
  | 0x9 => some ⟨group, .LegacyChannelVoice (.NoteOn channel (b.getD 2 0) (b.getD 3 0))⟩
  | 0xa => some ⟨group, .LegacyChannelVoice (.PolyPressure channel (b.getD 2 0) (b.getD 3 0))⟩
  | 0xb => some ⟨group, .LegacyChannelVoice (.ControlChange channel (b.getD 2 0) (b.getD 3 0))⟩
  | 0xc => some ⟨group, .LegacyChannelVoice (.ProgramChange channel (b.getD 2 0) (b.getD 3 0))⟩
  | 0xd => some ⟨group, .LegacyChannelVoice (.ChannelPressure channel (b.getD 2 0) (b.getD 3 0))⟩
  | 0xe => some ⟨group, .LegacyChannelVoice
      (.PitchBend channel (b.getD 2 0 + 256 * b.getD 3 0))⟩
  | _ => none

/-- `ump::channel_voice2`: decode a 64-bit MIDI-2 channel-voice packet;
multi-byte fields are `from_le_bytes`.  `unreachable!` (nibble 7) is
`none`. -/
def channel_voice2 (b : List Nat) : Option MidiMessage :=
  let group := b.getD 0 0 % 16
  let channel := b.getD 1 0 % 16
  let le16 := b.getD 4 0 + 256 * b.getD 5 0
  let le16hi := b.getD 6 0 + 256 * b.getD 7 0
  let le32 := b.getD 4 0 + 256 * b.getD 5 0 + 65536 * b.getD 6 0 + 16777216 * b.getD 7 0
  match b.getD 1 0 >>> 4 with
  | 0x8 => some ⟨group, .ChannelVoice (.NoteOff channel (b.getD 2 0) (b.getD 3 0) le16 le16hi)⟩
  | 0x9 => some ⟨group, .ChannelVoice (.NoteOn channel (b.getD 2 0) (b.getD 3 0) le16 le16hi)⟩
  | 0xa => some ⟨group, .ChannelVoice (.PolyPressure channel (b.getD 2 0) le32)⟩
  | 0x0 => some ⟨group, .ChannelVoice (.RegPerNoteCtrl channel (b.getD 2 0) (b.getD 3 0) le32)⟩
  | 0x1 => some ⟨group, .ChannelVoice (.AsgnPerNoteCtrl channel (b.getD 2 0) (b.getD 3 0) le32)⟩
  | 0xf => some ⟨group, .ChannelVoice (.PerNoteMngmt channel (b.getD 2 0) (b.getD 3 0))⟩
  | 0xb => some ⟨group, .ChannelVoice (.ControlChange channel (b.getD 2 0) le32)⟩
  | 0x2 => some ⟨group, .ChannelVoice (.RegsteredCtrl channel (b.getD 2 0) (b.getD 3 0) le32)⟩
  | 0x3 => some ⟨group, .ChannelVoice (.AssignableCtrl channel (b.getD 2 0) (b.getD 3 0) le32)⟩
  | 0x4 => some ⟨group, .ChannelVoice (.RelRegCtrl channel (b.getD 2 0) (b.getD 3 0) le32)⟩
  | 0x5 => some ⟨group, .ChannelVoice (.RelAssnCtrl channel (b.getD 2 0) (b.getD 3 0) le32)⟩
  | 0xc => some ⟨group, .ChannelVoice
      (.ProgramChange channel (b.getD 3 0) (b.getD 4 0) (256 * b.getD 6 0 + b.getD 7 0))⟩
  | 0xd => some ⟨group, .ChannelVoice (.ChannelPressure channel le32)⟩
  | 0xe => some ⟨group, .ChannelVoice (.PitchBend channel le32)⟩
  | 0x6 => some ⟨group, .ChannelVoice (.PerNotePitchBnd channel (b.getD 2 0) le32)⟩
  | _ => none

/-- `ump::utility`: status is the high nibble of byte 1; `unreachable!` for
nibbles `≥ 3` is `none`. -/
def utility (b : List Nat) : Option MidiMessage :=
  let group := b.getD 0 0 % 16
  match b.getD 1 0 >>> 4 with
  | 0 => some ⟨group, .Utility .NoOp⟩
  | 1 => some ⟨group, .Utility (.JrClock (b.getD 2 0 + 256 * b.getD 3 0))⟩
  | 2 => some ⟨group, .Utility (.JrTimestamp (b.getD 2 0 + 256 * b.getD 3 0))⟩
  | _ => none

/-- `ump::system`: reserved status bytes decode to `Undefined`;
`unreachable!` for non-system bytes is `none`. -/
def system (b : List Nat) : Option MidiMessage :=
  let group := b.getD 0 0 % 16
  match b.getD 1 0 with
  | 0xf0 | 0xf4 | 0xf5 | 0xf7 | 0xf9 | 0xfd => some ⟨group, .Undefined (.U32 b)⟩
  | 0xf1 => some ⟨group, .SystemCommon (.TimeCode (b.getD 2 0))⟩
  | 0xf2 => some ⟨group, .SystemCommon
      (.SongPositionPointer ((b.getD 3 0) <<< 7 ||| b.getD 2 0))⟩
  | 0xf3 => some ⟨group, .SystemCommon (.SongSelect (b.getD 2 0))⟩
  | 0xf6 => some ⟨group, .SystemCommon .TuneRequest⟩
  | 0xf8 => some ⟨group, .SystemRealtime .TimingClock⟩
  | 0xfa => some ⟨group, .SystemRealtime .Start⟩
  | 0xfb => some ⟨group, .SystemRealtime .Continue⟩
  | 0xfc => some ⟨group, .SystemRealtime .Stop⟩
  | 0xfe => some ⟨group, .SystemRealtime .ActiveSensing⟩
  | 0xff => some ⟨group, .SystemRealtime .Reset⟩
  | _ => none

/-- `ump::data64`; `unreachable!` for status nibble `≥ 4` is `none`. -/
def data64 (b : List Nat) : Option MidiMessage :=
  let group := b.getD 0 0 % 16
  match b.getD 1 0 >>> 4 with
  | 0 => some ⟨group, .Data64 (.SinglePacket b)⟩
  | 1 => some ⟨group, .Data64 (.Start b)⟩
  | 2 => some ⟨group, .Data64 (.Continue b)⟩
  | 3 => some ⟨group, .Data64 (.End b)⟩
  | _ => none

/-- `ump::data128`; `unreachable!` for status nibble `≥ 6` is `none`. -/
def data128 (b : List Nat) : Option MidiMessage :=
  let group := b.getD 0 0 % 16
  match b.getD 1 0 >>> 4 with
  | 0 => some ⟨group, .Data128 (.SinglePacket b)⟩
  | 1 => some ⟨group, .Data128 (.Start b)⟩
  | 2 => some ⟨group, .Data128 (.Continue b)⟩
  | 3 => some ⟨group, .Data128 (.End b)⟩
  | 4 => some ⟨group, .Data128 (.MixedDataSetHeader b)⟩
  | 5 => some ⟨group, .Data128 (.MixedDataSetPayload b)⟩
  | _ => none

/-- `impl From<UMP> for MidiMessage`: dispatch on packet width and type
nibble; unhandled type nibbles become `Undefined`. -/
def toMidiMessage (u : UMP) : Option MidiMessage :=
  match u with
  | .U32 b =>
    match b.getD 0 0 >>> 4 with
    | 0 => utility b
    | 1 => system b
    | 2 => channel_voice1 b
    | _ => some ⟨b.getD 0 0 % 16, .Undefined (.U32 b)⟩
  | .U64 b =>
    match b.getD 0 0 >>> 4 with
    | 3 => data64 b
    | 4 => channel_voice2 b
    | _ => some ⟨b.getD 0 0 % 16, .Undefined (.U64 b)⟩
  | .U96 b => some ⟨b.getD 0 0 % 16, .Undefined (.U96 b)⟩
  | .U128 b =>
    match b.getD 0 0 >>> 4 with
    | 5 => data128 b
    | _ => some ⟨b.getD 0 0 % 16, .Undefined (.U128 b)⟩

end ump


/-! ## Theorems -/

theorem tableWidth_pos (t : Nat) : 1 ≤ tableWidth t := by
  unfold tableWidth
  split <;> [skip; split <;> [skip; split]] <;> norm_num

/-! ### Codec helper lemmas -/

theorem toLEBytes_length (w : Nat) : (toLEBytes w).length = 4 := rfl

theorem fromLE4_toLEBytes (w : Nat) (h : w < 2 ^ 32) :
    fromLE4 (toLEBytes w) = some w := by
  simp only [toLEBytes, fromLE4, Option.some.injEq]
  omega

theorem chunkAt_zero_append (w : Nat) (rest : List Nat) (h : w < 2 ^ 32) :
    chunkAt (toLEBytes w ++ rest) 0 = some w := by
  have : (toLEBytes w ++ rest).take 4 = toLEBytes w := by
    simp [toLEBytes, List.take_append]
  simp only [chunkAt, Nat.mul_zero, List.drop_zero, this]
  exact fromLE4_toLEBytes w h

theorem chunkAt_succ_append (w : Nat) (rest : List Nat) (k : Nat) :
    chunkAt (toLEBytes w ++ rest) (k + 1) = chunkAt rest k := by
  have h4 : 4 * (k + 1) = (toLEBytes w).length + 4 * k := by
    simp only [toLEBytes_length]; omega
  simp only [chunkAt, h4, List.drop_append]

theorem decode_encode_aux1 (w0 : Nat) (rest : List Nat) (h0 : w0 < 2 ^ 32) :
    chunkAt (toLEBytes w0 ++ rest) 0 = some w0 :=
  chunkAt_zero_append w0 rest h0

/-- C1 (general form): decoding the encoder's byte image of a well-formed
message recovers the byte width and the message, for any trailing buffer
content. -/
theorem decode_encode (d : Data) (rest : List Nat) (hwf : d.wf) (hlt : d.wordsLt) :
    decode (encodeBytes d ++ rest) = some (4 * d.widthWords, d) := by
  cases d with
  | Utility p =>
    obtain ⟨w0⟩ := p
    have h0 : w0 < 2 ^ 32 := hlt _ (by simp [Data.words])
    have ht : messageTypeOf w0 = 0 := hwf
    simp [encodeBytes, Data.words, Data.widthWords, decode,
      chunkAt_zero_append w0 rest h0, ht]
  | System p =>
    obtain ⟨w0⟩ := p
    have h0 : w0 < 2 ^ 32 := hlt _ (by simp [Data.words])
    have ht : messageTypeOf w0 = 1 := hwf
    simp [encodeBytes, Data.words, Data.widthWords, decode,
      chunkAt_zero_append w0 rest h0, ht]
  | LegacyChannelVoice p =>
    obtain ⟨w0⟩ := p
    have h0 : w0 < 2 ^ 32 := hlt _ (by simp [Data.words])
    have ht : messageTypeOf w0 = 2 := hwf
    simp [encodeBytes, Data.words, Data.widthWords, decode,
      chunkAt_zero_append w0 rest h0, ht]
  | Reserved32 p =>
    obtain ⟨w0⟩ := p
    have h0 : w0 < 2 ^ 32 := hlt _ (by simp [Data.words])
    rcases hwf with ht | ht <;>
      simp [encodeBytes, Data.words, Data.widthWords, decode,
        chunkAt_zero_append w0 rest h0, ht]
  | Data64 p =>
    obtain ⟨w0, w1⟩ := p
    have h0 : w0 < 2 ^ 32 := hlt _ (by simp [Data.words])
    have h1 : w1 < 2 ^ 32 := hlt _ (by simp [Data.words])
    have ht : messageTypeOf w0 = 3 := hwf
    simp [encodeBytes, Data.words, Data.widthWords, decode,
      chunkAt_zero_append w0 _ h0, chunkAt_succ_append,
      chunkAt_zero_append w1 rest h1, ht]
  | ChannelVoice p =>
    obtain ⟨w0, w1⟩ := p
    have h0 : w0 < 2 ^ 32 := hlt _ (by simp [Data.words])
    have h1 : w1 < 2 ^ 32 := hlt _ (by simp [Data.words])
    have ht : messageTypeOf w0 = 4 := hwf
    simp [encodeBytes, Data.words, Data.widthWords, decode,
      chunkAt_zero_append w0 _ h0, chunkAt_succ_append,
      chunkAt_zero_append w1 rest h1, ht]
  | Reserved64 p =>
    obtain ⟨w0, w1⟩ := p
    have h0 : w0 < 2 ^ 32 := hlt _ (by simp [Data.words])
    have h1 : w1 < 2 ^ 32 := hlt _ (by simp [Data.words])
    rcases hwf with ht | ht | ht <;>
      simp [encodeBytes, Data.words, Data.widthWords, decode,
        chunkAt_zero_append w0 _ h0, chunkAt_succ_append,
        chunkAt_zero_append w1 rest h1, ht]
  | Reserved96 p =>
    obtain ⟨w0, w1, w2⟩ := p
    have h0 : w0 < 2 ^ 32 := hlt _ (by simp [Data.words])
    have h1 : w1 < 2 ^ 32 := hlt _ (by simp [Data.words])
    have h2 : w2 < 2 ^ 32 := hlt _ (by simp [Data.words])
    rcases hwf with ht | ht <;>
      simp [encodeBytes, Data.words, Data.widthWords, decode,
        chunkAt_zero_append w0 _ h0, chunkAt_succ_append,
        chunkAt_zero_append w1 _ h1, chunkAt_zero_append w2 rest h2, ht]
  | Data128 p =>
    obtain ⟨w0, w1, w2, w3⟩ := p
    have h0 : w0 < 2 ^ 32 := hlt _ (by simp [Data.words])
    have h1 : w1 < 2 ^ 32 := hlt _ (by simp [Data.words])
    have h2 : w2 < 2 ^ 32 := hlt _ (by simp [Data.words])
    have h3 : w3 < 2 ^ 32 := hlt _ (by simp [Data.words])
    have ht : messageTypeOf w0 = 5 := hwf
    simp [encodeBytes, Data.words, Data.widthWords, decode,
      chunkAt_zero_append w0 _ h0, chunkAt_succ_append,
      chunkAt_zero_append w1 _ h1, chunkAt_zero_append w2 _ h2,
      chunkAt_zero_append w3 rest h3, ht]
  | Flex p =>
    obtain ⟨w0, w1, w2, w3⟩ := p
    have h0 : w0 < 2 ^ 32 := hlt _ (by simp [Data.words])
    have h1 : w1 < 2 ^ 32 := hlt _ (by simp [Data.words])
    have h2 : w2 < 2 ^ 32 := hlt _ (by simp [Data.words])
    have h3 : w3 < 2 ^ 32 := hlt _ (by simp [Data.words])
    have ht : messageTypeOf w0 = 0xd := hwf
    simp [encodeBytes, Data.words, Data.widthWords, decode,
      chunkAt_zero_append w0 _ h0, chunkAt_succ_append,
      chunkAt_zero_append w1 _ h1, chunkAt_zero_append w2 _ h2,
      chunkAt_zero_append w3 rest h3, ht]
  | UmpStream p =>
    obtain ⟨w0, w1, w2, w3⟩ := p
    have h0 : w0 < 2 ^ 32 := hlt _ (by simp [Data.words])
    have h1 : w1 < 2 ^ 32 := hlt _ (by simp [Data.words])
    have h2 : w2 < 2 ^ 32 := hlt _ (by simp [Data.words])
    have h3 : w3 < 2 ^ 32 := hlt _ (by simp [Data.words])
    have ht : messageTypeOf w0 = 0xf := hwf
    simp [encodeBytes, Data.words, Data.widthWords, decode,
      chunkAt_zero_append w0 _ h0, chunkAt_succ_append,
      chunkAt_zero_append w1 _ h1, chunkAt_zero_append w2 _ h2,
      chunkAt_zero_append w3 rest h3, ht]
  | Reserved128 p =>
    obtain ⟨w0, w1, w2, w3⟩ := p
    have h0 : w0 < 2 ^ 32 := hlt _ (by simp [Data.words])
    have h1 : w1 < 2 ^ 32 := hlt _ (by simp [Data.words])
    have h2 : w2 < 2 ^ 32 := hlt _ (by simp [Data.words])
    have h3 : w3 < 2 ^ 32 := hlt _ (by simp [Data.words])
    have ht : messageTypeOf w0 = 0xe := hwf
    simp [encodeBytes, Data.words, Data.widthWords, decode,
      chunkAt_zero_append w0 _ h0, chunkAt_succ_append,
      chunkAt_zero_append w1 _ h1, chunkAt_zero_append w2 _ h2,
      chunkAt_zero_append w3 rest h3, ht]


theorem fromLE4_eq_none_iff (l : List Nat) : fromLE4 l = none ↔ l.length ≠ 4 := by
  rcases l with _ | ⟨a, _ | ⟨b, _ | ⟨c, _ | ⟨d, _ | ⟨e, tl⟩⟩⟩⟩⟩ <;> simp [fromLE4]

theorem chunkAt_eq_none_iff (buf : List Nat) (k : Nat) :
    chunkAt buf k = none ↔ buf.length < 4 * (k + 1) := by
  rw [chunkAt, fromLE4_eq_none_iff]
  simp only [List.length_take, List.length_drop]
  omega

theorem chunkAt_exists_of_le (buf : List Nat) (k : Nat) (h : 4 * (k + 1) ≤ buf.length) :
    ∃ w, chunkAt buf k = some w := by
  rcases hc : chunkAt buf k with _ | w
  · rw [chunkAt_eq_none_iff] at hc; omega
  · exact ⟨w, rfl⟩


/-- C4 (general form): whenever `decode` succeeds, the reported consumed
byte count is four times the word width that the §3 table assigns to the
message-type nibble of the first word. -/
theorem decode_consumes_tableWidth (buf : List Nat) (n : Nat) (d : Data) (w0 : Nat)
    (hc : chunkAt buf 0 = some w0) (h : decode buf = some (n, d)) :
    n = 4 * tableWidth (messageTypeOf w0) := by
  simp only [decode, hc] at h
  set t := messageTypeOf w0 with htdef
  by_cases h1 : t = 0 ∨ t = 1 ∨ t = 2 ∨ t = 6 ∨ t = 7
  · rw [if_pos h1] at h
    rw [tableWidth, if_pos h1]
    simp only [Option.some.injEq, Prod.mk.injEq] at h
    omega
  · rw [if_neg h1] at h
    by_cases h2 : t = 3 ∨ t = 4 ∨ t = 8 ∨ t = 9 ∨ t = 0xa
    · rw [if_pos h2] at h
      rw [tableWidth, if_neg h1, if_pos h2]
      rcases hc1 : chunkAt buf 1 with _ | w1 <;> rw [hc1] at h
      · exact absurd h (by simp)
      · simp only [Option.some.injEq, Prod.mk.injEq] at h
        omega
    · rw [if_neg h2] at h
      by_cases h3 : t = 0xb ∨ t = 0xc
      · rw [if_pos h3] at h
        rw [tableWidth, if_neg h1, if_neg h2, if_pos h3]
        rcases hc1 : chunkAt buf 1 with _ | w1 <;>
          rcases hc2 : chunkAt buf 2 with _ | w2 <;>
            simp [hc1, hc2] at h <;> omega
      · rw [if_neg h3] at h
        by_cases h4 : t = 5 ∨ t = 0xd ∨ t = 0xe ∨ t = 0xf
        · rw [if_pos h4] at h
          rw [tableWidth, if_neg h1, if_neg h2, if_neg h3]
          rcases hc1 : chunkAt buf 1 with _ | w1 <;>
            rcases hc2 : chunkAt buf 2 with _ | w2 <;>
              rcases hc3 : chunkAt buf 3 with _ | w3 <;>
                simp [hc1, hc2, hc3] at h <;> omega
        · rw [if_neg h4] at h
          exact absurd h (by simp)

theorem decode_none_iff_lt (buf : List Nat) (w0 : Nat)
    (hc : chunkAt buf 0 = some w0) (h16 : messageTypeOf w0 < 16) :
    (decode buf = none ↔ buf.length < 4 * tableWidth (messageTypeOf w0)) := by
  have hlen4 : ¬buf.length < 4 := by
    intro hh
    have : chunkAt buf 0 = none := (chunkAt_eq_none_iff buf 0).2 (by omega)
    rw [hc] at this
    cases this
  have l1 : chunkAt buf 1 = none ↔ buf.length < 8 := by
    simpa using chunkAt_eq_none_iff buf 1
  have l2 : chunkAt buf 2 = none ↔ buf.length < 12 := by
    simpa using chunkAt_eq_none_iff buf 2
  have l3 : chunkAt buf 3 = none ↔ buf.length < 16 := by
    simpa using chunkAt_eq_none_iff buf 3
  simp only [decode, hc]
  set t := messageTypeOf w0 with htdef
  by_cases h1 : t = 0 ∨ t = 1 ∨ t = 2 ∨ t = 6 ∨ t = 7
  · rw [if_pos h1, tableWidth, if_pos h1]
    exact iff_of_false (by simp) (by omega)
  · rw [if_neg h1]
    by_cases h2 : t = 3 ∨ t = 4 ∨ t = 8 ∨ t = 9 ∨ t = 0xa
    · rw [if_pos h2, tableWidth, if_neg h1, if_pos h2]
      rcases hc1 : chunkAt buf 1 with _ | w1 <;> simp only [hc1]
      · exact iff_of_true (by simp) (by have := l1.1 hc1; omega)
      · refine iff_of_false (by simp) fun hh => ?_
        have := l1.2 (by omega)
        rw [hc1] at this
        cases this
    · rw [if_neg h2]
      by_cases h3 : t = 0xb ∨ t = 0xc
      · rw [if_pos h3, tableWidth, if_neg h1, if_neg h2, if_pos h3]
        rcases hc1 : chunkAt buf 1 with _ | w1 <;>
          rcases hc2 : chunkAt buf 2 with _ | w2 <;> simp only [hc1, hc2]
        · exact iff_of_true (by simp) (by have := l1.1 hc1; omega)
        · exact iff_of_true (by simp) (by have := l1.1 hc1; omega)
        · exact iff_of_true (by simp) (by have := l2.1 hc2; omega)
        · refine iff_of_false (by simp) fun hh => ?_
          have := l2.2 (by omega)
          rw [hc2] at this
          cases this
      · rw [if_neg h3]
        by_cases h4 : t = 5 ∨ t = 0xd ∨ t = 0xe ∨ t = 0xf
        · rw [if_pos h4, tableWidth, if_neg h1, if_neg h2, if_neg h3]
          rcases hc1 : chunkAt buf 1 with _ | w1 <;>
            rcases hc2 : chunkAt buf 2 with _ | w2 <;>
              rcases hc3 : chunkAt buf 3 with _ | w3 <;> simp only [hc1, hc2, hc3]
          · exact iff_of_true (by simp) (by have := l1.1 hc1; omega)
          · exact iff_of_true (by simp) (by have := l1.1 hc1; omega)
          · exact iff_of_true (by simp) (by have := l1.1 hc1; omega)
          · exact iff_of_true (by simp) (by have := l1.1 hc1; omega)
          · exact iff_of_true (by simp) (by have := l2.1 hc2; omega)
          · exact iff_of_true (by simp) (by have := l2.1 hc2; omega)
          · exact iff_of_true (by simp) (by have := l3.1 hc3; omega)
          · refine iff_of_false (by simp) fun hh => ?_
            have := l3.2 (by omega)
            rw [hc3] at this
            cases this
        · omega

theorem decode_reserved_of_nibble (buf : List Nat) (w0 n : Nat) (d : Data)
    (hc : chunkAt buf 0 = some w0) (h : decode buf = some (n, d))
    (hres : messageTypeOf w0 = 6 ∨ messageTypeOf w0 = 7 ∨ messageTypeOf w0 = 8 ∨
      messageTypeOf w0 = 9 ∨ messageTypeOf w0 = 0xa ∨ messageTypeOf w0 = 0xb ∨
      messageTypeOf w0 = 0xc ∨ messageTypeOf w0 = 0xe) :
    d.isReserved ∧ d.widthWords = tableWidth (messageTypeOf w0) := by
  simp only [decode, hc] at h
  set t := messageTypeOf w0 with htdef
  by_cases h1 : t = 0 ∨ t = 1 ∨ t = 2 ∨ t = 6 ∨ t = 7
  · rw [if_pos h1] at h
    rw [if_neg (by omega), if_neg (by omega), if_neg (by omega)] at h
    simp only [Option.some.injEq, Prod.mk.injEq] at h
    rw [← h.2, tableWidth, if_pos h1]
    exact ⟨trivial, rfl⟩
  · rw [if_neg h1] at h
    by_cases h2 : t = 3 ∨ t = 4 ∨ t = 8 ∨ t = 9 ∨ t = 0xa
    · rw [if_pos h2] at h
      rcases hc1 : chunkAt buf 1 with _ | w1 <;> simp only [hc1] at h
      · cases h
      · rw [if_neg (by omega), if_neg (by omega)] at h
        simp only [Option.some.injEq, Prod.mk.injEq] at h
        rw [← h.2, tableWidth, if_neg h1, if_pos h2]
        exact ⟨trivial, rfl⟩
    · rw [if_neg h2] at h
      by_cases h3 : t = 0xb ∨ t = 0xc
      · rw [if_pos h3] at h
        rcases hc1 : chunkAt buf 1 with _ | w1 <;>
          rcases hc2 : chunkAt buf 2 with _ | w2 <;> simp only [hc1, hc2] at h
        · cases h
        · cases h
        · cases h
        · simp only [Option.some.injEq, Prod.mk.injEq] at h
          rw [← h.2, tableWidth, if_neg h1, if_neg h2, if_pos h3]
          exact ⟨trivial, rfl⟩
      · rw [if_neg h3] at h
        by_cases h4 : t = 5 ∨ t = 0xd ∨ t = 0xe ∨ t = 0xf
        · rw [if_pos h4] at h
          rcases hc1 : chunkAt buf 1 with _ | w1 <;>
            rcases hc2 : chunkAt buf 2 with _ | w2 <;>
              rcases hc3 : chunkAt buf 3 with _ | w3 <;> simp only [hc1, hc2, hc3] at h
          · cases h
          · cases h
          · cases h
          · cases h
          · cases h
          · cases h
          · cases h
          · rw [if_neg (by omega), if_neg (by omega), if_neg (by omega)] at h
            simp only [Option.some.injEq, Prod.mk.injEq] at h
            rw [← h.2, tableWidth, if_neg h1, if_neg h2, if_neg h3]
            exact ⟨trivial, rfl⟩
        · rw [if_neg h4] at h
          cases h


/-- C5 (general form): over `u8` buffers, `decode` fails exactly when the
buffer is shorter than the packet width implied by the leading type nibble,
and a successful decode of a reserved/unused nibble yields the `Reserved`
variant of the width the table mandates. -/
theorem decode_fail_iff_short (buf : List Nat) (hb : ∀ b ∈ buf, b < 256) :
    (decode buf = none ↔ buf.length < 4 * tableWidth (nibbleOf buf)) ∧
    (∀ n d, decode buf = some (n, d) →
      (nibbleOf buf = 6 ∨ nibbleOf buf = 7 ∨ nibbleOf buf = 8 ∨ nibbleOf buf = 9 ∨
        nibbleOf buf = 0xa ∨ nibbleOf buf = 0xb ∨ nibbleOf buf = 0xc ∨ nibbleOf buf = 0xe) →
      d.isReserved ∧ d.widthWords = tableWidth (nibbleOf buf)) := by
  rcases buf with _ | ⟨b0, _ | ⟨b1, _ | ⟨b2, _ | ⟨b3, rest⟩⟩⟩⟩
  · refine ⟨iff_of_true rfl ?_, fun n d hd _ => ?_⟩
    · have := tableWidth_pos (nibbleOf [])
      simp only [List.length_nil]
      omega
    · rw [show decode [] = none from rfl] at hd
      cases hd
  · refine ⟨iff_of_true rfl ?_, fun n d hd _ => ?_⟩
    · have := tableWidth_pos (nibbleOf [b0])
      simp only [List.length_cons, List.length_nil]
      omega
    · rw [show decode [b0] = none from rfl] at hd
      cases hd
  · refine ⟨iff_of_true rfl ?_, fun n d hd _ => ?_⟩
    · have := tableWidth_pos (nibbleOf [b0, b1])
      simp only [List.length_cons, List.length_nil]
      omega
    · rw [show decode [b0, b1] = none from rfl] at hd
      cases hd
  · refine ⟨iff_of_true rfl ?_, fun n d hd _ => ?_⟩
    · have := tableWidth_pos (nibbleOf [b0, b1, b2])
      simp only [List.length_cons, List.length_nil]
      omega
    · rw [show decode [b0, b1, b2] = none from rfl] at hd
      cases hd
  · have hb3 : b3 < 256 := hb _ (by simp)
    have hw0 : chunkAt (b0 :: b1 :: b2 :: b3 :: rest) 0
        = some (b0 + 256 * b1 + 65536 * b2 + 16777216 * b3) := rfl
    have hnib0 : nibbleOf (b0 :: b1 :: b2 :: b3 :: rest) = b3 >>> 4 := rfl
    have hmt : messageTypeOf (b0 + 256 * b1 + 65536 * b2 + 16777216 * b3)
        = nibbleOf (b0 :: b1 :: b2 :: b3 :: rest) := by
      have hb0 : b0 < 256 := hb _ (by simp)
      have hb1 : b1 < 256 := hb _ (by simp)
      have hb2 : b2 < 256 := hb _ (by simp)
      rw [hnib0]
      simp only [messageTypeOf, Nat.shiftRight_eq_div_pow]
      omega
    have h16 : messageTypeOf (b0 + 256 * b1 + 65536 * b2 + 16777216 * b3) < 16 := by
      rw [hmt, hnib0, Nat.shiftRight_eq_div_pow]
      omega
    constructor
    · rw [← hmt]
      exact decode_none_iff_lt _ _ hw0 h16
    · intro n d hd hres
      rw [← hmt] at hres ⊢
      exact decode_reserved_of_nibble _ _ _ _ hw0 hd hres


/-! ## Theorems about the message categories and conversion -/

/-- C2: decoding the Utility packet `0x0005_0000` (status byte 5, which has
no defined Utility meaning) yields the `Utility` variant — not a Reserved
one — carrying the raw packet; re-encoding reproduces the bytes; but
`Utility::status` hits its `unreachable!` arm (modelled as `none`), i.e.
panics. -/
theorem decode_utility_status5 :
    decode [0x00, 0x00, 0x05, 0x00] = some (4, .Utility ⟨0x00050000⟩) ∧
    encodeBytes (.Utility ⟨0x00050000⟩) = [0x00, 0x00, 0x05, 0x00] ∧
    utility.statusResult 0x00050000 = none := by
  refine ⟨by decide, by decide, by decide⟩

/-- C6: `with_channel` on the legacy note-on packet `0x2090_4030`
(note `0x40`, velocity `0x30`, group 0, channel 0) yields `0x2190_0000` —
far from patching only the channel nibble, it wipes the note and velocity
bytes and the channel nibble and writes the channel value into the group
nibble. -/
theorem with_channel_clobbers :
    channel1.with_channel (channel1.note_on 0x40 0x30) 1 = 0x21900000 ∧
    channel1.note_number (channel1.with_channel (channel1.note_on 0x40 0x30) 1) = 0 ∧
    channel1.note_number (channel1.note_on 0x40 0x30) = 0x40 ∧
    channel1.velocity (channel1.with_channel (channel1.note_on 0x40 0x30) 1) = 0 ∧
    channel1.velocity (channel1.note_on 0x40 0x30) = 0x30 ∧
    channel1.channel (channel1.with_channel (channel1.note_on 0x40 0x30) 1) = 0 ∧
    groupOf (channel1.with_channel (channel1.note_on 0x40 0x30) 1) = 1 ∧
    groupOf (channel1.note_on 0x40 0x30) = 0 := by
  refine ⟨by decide, by decide, by decide, by decide, by decide, by decide, by decide, by decide⟩

/-- C7: converting the wire packet `0x2095_3C64` (legacy note-on, channel
5, note `0x3C`, velocity `0x64`) does not preserve channel and note: the
converted message reports channel 0 and note `0x90`, the channel value
lands in the group nibble, and the status kind flips from the legacy
decoder's `NoteOff` to the MIDI-2 decoder's `NoteOn`. -/
theorem legacy_conversion_clobbers :
    legacyToChannelVoice 0x20953C64 = some ⟨0x45900000, 0x64000000⟩ ∧
    channel1.channel 0x20953C64 = 5 ∧
    channel2.channel ⟨0x45900000, 0x64000000⟩ = 0 ∧
    channel1.note_number 0x20953C64 = 0x3C ∧
    channel2.note_number ⟨0x45900000, 0x64000000⟩ = 0x90 ∧
    channel1.statusResult 0x20953C64 = some .NoteOff ∧
    channel2.statusResult ⟨0x45900000, 0x64000000⟩ = some .NoteOn ∧
    groupOf 0x45900000 = 5 ∧
    groupOf 0x20953C64 = 0 := by
  refine ⟨by decide, by decide, by decide, by decide, by decide, by decide, by decide,
    by decide, by decide⟩

/-- C3 counterexample: converting the legacy pitch-bend message built from
the centre value `0x2000` stores 0 in the wide data word — neither
`0x2000_0000` (the spec's literal) nor `0x2000 << 14 = 0x0800_0000`. -/
theorem legacy_pitch_bend_center_conversion :
    (legacyToChannelVoice (channel1.pitch_bend 0x2000)).map channel2.pitch_bend_value
      = some 0 ∧
    (legacyToChannelVoice (channel1.pitch_bend 0x2000)).map channel2.pitch_bend_value
      ≠ some 0x20000000 ∧
    (legacyToChannelVoice (channel1.pitch_bend 0x2000)).map channel2.pitch_bend_value
      ≠ some (0x2000 <<< 14) := by
  refine ⟨by decide, by decide, by decide⟩

theorem pitch_bend_word_of_shift14 (v : Nat) :
    channel2.pitch_bend_word (convert_pitch_bend v) = v % 2 * 0x8000 := by
  unfold channel2.pitch_bend_word convert_pitch_bend
  have h2 : (((v <<< 14 <<< 7) % 4294967296) >>> 7) % 256 = 0 := by
    simp only [Nat.shiftLeft_eq, Nat.shiftRight_eq_div_pow]
    omega
  rw [h2, Nat.or_zero]
  simp only [Nat.shiftLeft_eq, Nat.shiftRight_eq_div_pow]
  omega

/-- C3 amended (general form): conversion scales velocity by `<< 8` and
pressure / control-change values by `<< 24` exactly; for pitch bend it
computes `v << 14` but the `ChannelVoice::pitch_bend` constructor then
byte-truncates that word, so the stored wide value is `0x8000` for odd `v`
and `0` otherwise. -/
theorem legacy_conversion_scaling (w : Nat) :
    ((channel1.statusResult w = some .NoteOn ∨ channel1.statusResult w = some .NoteOff) →
      ∃ p, legacyToChannelVoice w = some p ∧
        channel2.velocity p = channel1.velocity w <<< 8) ∧
    (channel1.statusResult w = some .PolyPressure →
      ∃ p, legacyToChannelVoice w = some p ∧
        channel2.poly_pressure_value p = channel1.poly_pressure_value w <<< 24) ∧
    (channel1.statusResult w = some .ControlChange →
      ∃ p, legacyToChannelVoice w = some p ∧
        channel2.cc_value p = channel1.cc_value w <<< 24) ∧
    (channel1.statusResult w = some .ChannelPressure →
      ∃ p, legacyToChannelVoice w = some p ∧
        p.w1 = channel1.channel_pressure_value w <<< 24) ∧
    (channel1.statusResult w = some .PitchBend →
      ∃ p, legacyToChannelVoice w = some p ∧
        channel2.pitch_bend_value p = channel1.pitch_bend_value w % 2 * 0x8000) := by
  have hv : channel1.velocity w < 256 := Nat.mod_lt _ (by norm_num)
  refine ⟨?_, ?_, ?_, ?_, ?_⟩
  · rintro (h | h)
    · refine ⟨channel2.with_channel
          (channel2.note_on (channel1.note_number w)
            (convert_velocity (channel1.velocity w)) none) (channel1.channel w),
        by simp only [legacyToChannelVoice, h], ?_⟩
      simp only [channel2.velocity, channel2.with_channel, channel2.note_on,
        channel2.attrPair, convert_velocity, Nat.or_zero]
      simp only [Nat.shiftLeft_eq, Nat.shiftRight_eq_div_pow]
      omega
    · refine ⟨channel2.with_channel
          (channel2.note_off (channel1.note_number w)
            (convert_velocity (channel1.velocity w)) none) (channel1.channel w),
        by simp only [legacyToChannelVoice, h], ?_⟩
      simp only [channel2.velocity, channel2.with_channel, channel2.note_off,
        channel2.attrPair, convert_velocity, Nat.or_zero]
      simp only [Nat.shiftLeft_eq, Nat.shiftRight_eq_div_pow]
      omega
  · intro h
    exact ⟨channel2.with_channel
        (channel2.poly_pressure (channel1.poly_pressure_note w)
          (convert_pressure (channel1.poly_pressure_value w))) (channel1.channel w),
      by simp only [legacyToChannelVoice, h], rfl⟩
  · intro h
    exact ⟨channel2.with_channel
        (channel2.control_change (channel1.cc_index w)
          (convert_pressure (channel1.cc_value w))) (channel1.channel w),
      by simp only [legacyToChannelVoice, h], rfl⟩
  · intro h
    exact ⟨channel2.with_channel
        (channel2.channel_pressure (convert_pressure (channel1.channel_pressure_value w)))
        (channel1.channel w),
      by simp only [legacyToChannelVoice, h], rfl⟩
  · intro h
    refine ⟨channel2.with_channel
        (channel2.pitch_bend (convert_pitch_bend (channel1.pitch_bend_value w)))
        (channel1.channel w),
      by simp only [legacyToChannelVoice, h], ?_⟩
    exact pitch_bend_word_of_shift14 _


/-- C9 (general form): a 16-bit Flex status word whose bank byte is not
`0x00`/`0x01`/`0x02` converts to `Reserved` carrying the raw word, and
converting back reproduces the word exactly. -/
theorem flex_reserved_roundtrip (v : Nat) (hv : v < 65536)
    (hbank : v >>> 8 ≠ 0x00 ∧ v >>> 8 ≠ 0x01 ∧ v >>> 8 ≠ 0x02) :
    flex.statusFromU16 v = some (.Reserved v) ∧
    flex.statusToU16 (.Reserved v) = v := by
  unfold flex.statusFromU16
  rw [if_neg hbank.1, if_neg hbank.2.1, if_neg hbank.2.2]
  exact ⟨rfl, rfl⟩


theorem streamFromBytes_cons32 (b x y z : Nat) (rest : List Nat)
    (ht : b >>> 4 = 0 ∨ b >>> 4 = 1 ∨ b >>> 4 = 2 ∨ b >>> 4 = 6 ∨ b >>> 4 = 7) :
    ump.streamFromBytes (b :: x :: y :: z :: rest)
      = ump.UMP.U32 [b, x, y, z] :: ump.streamFromBytes rest := by
  rw [ump.streamFromBytes.eq_def]
  dsimp only
  rw [if_pos ht, if_pos (by simp : 3 ≤ (x :: y :: z :: rest).length)]
  rfl

theorem streamFromBytes_cons64 (b x1 x2 x3 x4 x5 x6 x7 : Nat) (rest : List Nat)
    (ht : b >>> 4 = 3 ∨ b >>> 4 = 4 ∨ b >>> 4 = 8 ∨ b >>> 4 = 9 ∨ b >>> 4 = 0xa) :
    ump.streamFromBytes (b :: x1 :: x2 :: x3 :: x4 :: x5 :: x6 :: x7 :: rest)
      = ump.UMP.U64 [b, x1, x2, x3, x4, x5, x6, x7] :: ump.streamFromBytes rest := by
  have ht1 : ¬(b >>> 4 = 0 ∨ b >>> 4 = 1 ∨ b >>> 4 = 2 ∨ b >>> 4 = 6 ∨ b >>> 4 = 7) := by
    omega
  rw [ump.streamFromBytes.eq_def]
  dsimp only
  rw [if_neg ht1, if_pos ht,
    if_pos (by simp : 7 ≤ (x1 :: x2 :: x3 :: x4 :: x5 :: x6 :: x7 :: rest).length)]
  rfl

theorem streamFromBytes_short (g : List Nat) (hg : g.length ≤ 3) :
    ump.streamFromBytes g = [] := by
  rcases g with _ | ⟨b, rest⟩
  · rw [ump.streamFromBytes.eq_def]
  · have hr : rest.length ≤ 2 := by
      simp only [List.length_cons] at hg
      omega
    rw [ump.streamFromBytes.eq_def]
    dsimp only
    split_ifs <;> first | rfl | omega

/-- C8 (general form): the 16-byte buffer holding a Utility NoOp, a MIDI-2
NoteOn, and a System Reset — with up to 3 trailing garbage bytes — streams
to exactly those three messages, in order, with their packet categories. -/
theorem stream_three_packets (g : List Nat) (hg : g.length ≤ 3) :
    ((ump.streamFromBytes
        ([0x00, 0x00, 0x00, 0x00,
          0x41, 0x92, 0x3C, 0x00, 0x00, 0x64, 0x00, 0x00,
          0x11, 0xFF, 0x00, 0x00] ++ g)).map ump.toMidiMessage
      = [some ⟨0, .Utility .NoOp⟩,
         some ⟨1, .ChannelVoice (.NoteOn 2 0x3C 0 0x6400 0)⟩,
         some ⟨1, .SystemRealtime .Reset⟩]) ∧
    ((ump.streamFromBytes
        ([0x00, 0x00, 0x00, 0x00,
          0x41, 0x92, 0x3C, 0x00, 0x00, 0x64, 0x00, 0x00,
          0x11, 0xFF, 0x00, 0x00] ++ g)).map
          (fun u => (ump.toMidiMessage u).map (fun m => m.data.category))
      = [some .utility, some .channelVoice, some .system]) := by
  have hs : ump.streamFromBytes
      ([0x00, 0x00, 0x00, 0x00,
        0x41, 0x92, 0x3C, 0x00, 0x00, 0x64, 0x00, 0x00,
        0x11, 0xFF, 0x00, 0x00] ++ g)
      = ump.UMP.U32 [0x00, 0x00, 0x00, 0x00]
        :: ump.UMP.U64 [0x41, 0x92, 0x3C, 0x00, 0x00, 0x64, 0x00, 0x00]
        :: ump.UMP.U32 [0x11, 0xFF, 0x00, 0x00] :: ump.streamFromBytes g := by
    simp only [List.cons_append, List.nil_append]
    rw [streamFromBytes_cons32 _ _ _ _ _ (by decide)]
    rw [streamFromBytes_cons64 _ _ _ _ _ _ _ _ _ (by decide)]
    rw [streamFromBytes_cons32 _ _ _ _ _ (by decide)]
  rw [hs, streamFromBytes_short g hg]
  exact ⟨by decide, by decide⟩

/-- C10: the two legacy channel-voice decoders disagree on wire status
nibble `0x8` (packet `0x2080_3C40`, wire bytes `[0x20, 0x80, 0x3C, 0x40]`):
`LegacyChannelVoice::status` calls it `NoteOn` while `ump::channel_voice1`
decodes it as `NoteOff`; moreover `LegacyChannelVoice::status` classifies
the packets built by its own `note_on`/`note_off` constructors as the
opposite kind. -/
theorem legacy_status_decoders_disagree :
    channel1.statusResult 0x20803C40 = some .NoteOn ∧
    ump.channel_voice1 [0x20, 0x80, 0x3C, 0x40]
      = some ⟨0, .LegacyChannelVoice (.NoteOff 0 0x3C 0x40)⟩ ∧
    channel1.statusResult (channel1.note_on 60 100) = some .NoteOff ∧
    channel1.statusResult (channel1.note_off 60 100) = some .NoteOn := by
  refine ⟨by decide, by decide, by decide, by decide⟩

/-! ### Witnesses -/

/-- Witness for C1: a concrete well-formed Utility message round-trips
through the byte codec with a trailing byte present. -/
theorem decode_encode_witness :
    decode (encodeBytes (.Utility ⟨0x00200123⟩) ++ [0xAA])
      = some (4, .Utility ⟨0x00200123⟩) :=
  decode_encode (.Utility ⟨0x00200123⟩) [0xAA] (by decide) (by decide)

/-- Witness for C4: a successful decode of a type-4 (64-bit) packet
consumed the table's 8 bytes. -/
theorem decode_consumes_tableWidth_witness :
    chunkAt [0, 0, 0, 0x42, 5, 6, 7, 8] 0 = some 0x42000000 ∧
    decode [0, 0, 0, 0x42, 5, 6, 7, 8]
      = some (8, .ChannelVoice ⟨0x42000000, 134678021⟩) ∧
    8 = 4 * tableWidth (messageTypeOf 0x42000000) :=
  ⟨by decide, by decide,
    decode_consumes_tableWidth [0, 0, 0, 0x42, 5, 6, 7, 8] 8
      (.ChannelVoice ⟨0x42000000, 134678021⟩) 0x42000000 (by decide) (by decide)⟩

/-- Witness for C5: a 4-byte buffer whose leading nibble mandates an 8-byte
packet fails to decode. -/
theorem decode_fail_iff_short_witness :
    decode [0x00, 0x00, 0x00, 0x98] = none :=
  ((decode_fail_iff_short [0x00, 0x00, 0x00, 0x98] (by decide)).1).2 (by decide)

/-- Witness for C3: the legacy note-on wire packet `0x2080_4142` converts
to a message whose wide velocity field is the 7-bit velocity shifted left
by 8. -/
theorem legacy_conversion_scaling_witness :
    channel2.velocity ⟨0x40a00000, 0x42000000⟩ = channel1.velocity 0x20804142 <<< 8 := by
  obtain ⟨p, hp, hvel⟩ := (legacy_conversion_scaling 0x20804142).1 (Or.inl (by decide))
  have hpe : p = (⟨0x40a00000, 0x42000000⟩ : Packet64) :=
    Option.some.inj
      (hp.symm.trans
        (show legacyToChannelVoice 0x20804142 = some ⟨0x40a00000, 0x42000000⟩ by decide))
  rw [← hpe]
  exact hvel

/-- Witness for C9: bank byte 3 round-trips as `Reserved`. -/
theorem flex_reserved_roundtrip_witness :
    flex.statusFromU16 0x0305 = some (.Reserved 0x0305) ∧
    flex.statusToU16 (.Reserved 0x0305) = 0x0305 :=
  flex_reserved_roundtrip 0x0305 (by decide) ⟨by decide, by decide, by decide⟩

/-- Witness for C8: one trailing garbage byte `0x7F` after the three
packets. -/
theorem stream_three_packets_witness :
    (ump.streamFromBytes
        ([0x00, 0x00, 0x00, 0x00,
          0x41, 0x92, 0x3C, 0x00, 0x00, 0x64, 0x00, 0x00,
          0x11, 0xFF, 0x00, 0x00] ++ [0x7F])).map ump.toMidiMessage
      = [some ⟨0, .Utility .NoOp⟩,
         some ⟨1, .ChannelVoice (.NoteOn 2 0x3C 0 0x6400 0)⟩,
         some ⟨1, .SystemRealtime .Reset⟩] :=
  (stream_three_packets [0x7F] (by decide)).1

end Midi20
